import Mathlib

/-!
Shallow embedding of `volatility/framework/contexts/__init__.py` and proofs
about its contracts.

Only the contexts module is present in the repository source; the
collaborators it uses (`symbols.SymbolSpace`, `symbols.native`,
`layers.Memory`, `config.ConfigGroup`, `validity.ValidityRoutines`,
`interfaces.objects.ObjectInformation`) are modelled from the
specification, as marked on each definition. Python exceptions are
embedded as an error type; a method that can raise is modelled either as
`Except Err _` (when the raise aborts the whole call) or as a
`state × Option Err` pair (when the claim is about the state left behind
after the raise). Raise-before-mutate order in the Python bodies is
preserved: every check precedes the state update in the corresponding
definition.
-/

set_option autoImplicit false

namespace Volatility

/-- Errors raised by the modelled code. `configTypeMismatch` embeds the
`TypeError` raised at contexts/__init__.py:68; `typeCheckFailed` the error
raised by `validity.ValidityRoutines._type_check`; `symbolNotFound`,
`layerAlreadyExists` and `layerDependencyUnmet` the structured error kinds
of spec section 7; `notAModifier` the Python error from invoking a
non-modifier entry of the factory list. -/
inductive Err where
  | layerAlreadyExists
  | layerDependencyUnmet
  | symbolNotFound
  | configTypeMismatch
  | typeCheckFailed
  | notAModifier
  deriving DecidableEq

/-- Modelled from the spec: the native type table (section 6) is an
externally supplied architecture descriptor; only its identity matters to
the contexts module, so it is carried as a name. -/
structure NativeTable where
  arch : String
  deriving DecidableEq

/-- The table `symbols.native.x86NativeTable` referenced at
contexts/__init__.py:29 and as the default argument at line 45. -/
def x86NativeTable : NativeTable := { arch := "x86" }

/-- Modelled from the spec: a Template is a named, possibly parametric
type descriptor (section 3); its specialization parameters (`count`,
etc.) live in the `vol` mapping that `update_vol` updates. -/
structure Template where
  name : String
  vol : List (String × Nat)
  deriving DecidableEq

/-- Insert or overwrite one key in an association list, preserving the
position of an existing key (Python `dict.update` on one item). -/
def updateAssoc (m : List (String × Nat)) (kv : String × Nat) :
    List (String × Nat) :=
  if (m.lookup kv.fst).isSome then
    m.map (fun p => if p.fst = kv.fst then kv else p)
  else
    m ++ [kv]

/-- Modelled from the spec: `update_vol`-equivalent specialization
(section 4.2) applied to a parameter mapping. The design note in section 9
records that the original behavior mutates the looked-up template in
place; the statement call `object_template.update_vol(**arguments)` at
contexts/__init__.py:106, whose return value is discarded, requires those
in-place semantics for the specialization to take effect at line 107. The
mutation is embedded by computing the updated template here and writing it
back into the symbol space at the call site in `Context.object`. -/
def Template.update_vol (t : Template) (arguments : List (String × Nat)) :
    Template :=
  { t with vol := arguments.foldl updateAssoc t.vol }

/-- Modelled from the spec: a DataLayer is identified by name and declares
zero or more dependency names (section 3); reads and writes play no part
in the claims about the contexts module, so only the registration-relevant
fields are carried. -/
structure DataLayer where
  name : String
  dependencies : List String
  deriving DecidableEq

/-- Modelled from the spec: Memory owns a mapping from unique layer name
to DataLayer (section 3). -/
structure Memory where
  layers : List (String × DataLayer)
  deriving DecidableEq

def Memory.lookupLayer (m : Memory) (name : String) : Option DataLayer :=
  m.layers.lookup name

/-- Modelled from the spec: `add_layer` (section 4.1) fails with
`LayerAlreadyExists` if a layer of that name is already registered, fails
with `LayerDependencyUnmet` if any declared dependency is not yet
registered, and on failure leaves Memory unchanged; on success the layer
becomes queryable by name. The checks precede the registry update,
mirroring raise-before-mutate. -/
def Memory.add_layer (m : Memory) (l : DataLayer) : Memory × Option Err :=
  if (m.lookupLayer l.name).isSome then
    (m, some Err.layerAlreadyExists)
  else if l.dependencies.any (fun d => (m.lookupLayer d).isNone) then
    (m, some Err.layerDependencyUnmet)
  else
    ({ layers := m.layers ++ [(l.name, l)] }, none)

/-- Modelled from the spec: SymbolSpace owns named Templates and is
constructed with exactly one native table (sections 3 and 4.2). -/
structure SymbolSpace where
  natives : NativeTable
  structures : List (String × Template)
  deriving DecidableEq

/-- Modelled from the spec: `get_structure(qualified_name)` (section 4.2)
fails with `SymbolNotFound` if no registered table defines that name. It
hands back the registered template itself (a reference in Python), which
is what makes the in-place `update_vol` at contexts/__init__.py:106
visible through the space. -/
def SymbolSpace.get_structure (s : SymbolSpace) (name : String) :
    Except Err Template :=
  match s.structures.lookup name with
  | some t => Except.ok t
  | none => Except.error Err.symbolNotFound

/-- Write a template back under its registered name: the embedding of the
in-place mutation performed through the alias returned by
`get_structure`. -/
def SymbolSpace.setStructure (s : SymbolSpace) (name : String)
    (t : Template) : SymbolSpace :=
  { s with structures :=
      s.structures.map (fun p => if p.fst = name then (name, t) else p) }

/-- Modelled from the spec: the configuration store is an opaque
hierarchically-named store exposed but not interpreted by the Context
(section 6); the code constructs it as `config.ConfigGroup(name =
'volatility')`. -/
structure ConfigGroup where
  name : String
  deriving DecidableEq

/-- A Python value assigned to `context.config`: either a `ConfigGroup`
or some other object, which the setter at contexts/__init__.py:66-69
rejects. -/
inductive ConfigValue where
  | group (g : ConfigGroup)
  | other (tag : String)
  deriving DecidableEq

def ConfigValue.isGroup : ConfigValue → Bool
  | ConfigValue.group _ => true
  | ConfigValue.other _ => false

/-- Modelled from the spec: optional parent and native-layer metadata of
an ObjectInformation (section 3), carried as optional opaque values; the
keyword arguments omitted at contexts/__init__.py:108 leave them at their
Python default of None. -/
structure ObjectInformation where
  layer_name : String
  offset : Nat
  parent : Option Nat
  native_layer_name : Option String
  deriving DecidableEq

/-- The Context of contexts/__init__.py:36-109: one SymbolSpace, one
Memory, one configuration store. Field names follow the public property
accessors. -/
structure Context where
  symbol_space : SymbolSpace
  memory : Memory
  config : ConfigGroup
  deriving DecidableEq

/-- The constructor `Context.__init__` (contexts/__init__.py:45-56) with an explicit
natives argument: a fresh SymbolSpace over `natives`, an empty Memory and
a ConfigGroup named volatility. -/
def Context.init (natives : NativeTable) : Context :=
  { symbol_space := { natives := natives, structures := [] }
    memory := { layers := [] }
    config := { name := "volatility" } }

/-- The constructor `Context.__init__` called without an explicit natives argument: the
Python default is `symbols.native.x86NativeTable`
(contexts/__init__.py:45). -/
def Context.initDefault : Context := Context.init x86NativeTable

/-- The config setter (contexts/__init__.py:65-69): a value that is not a
ConfigGroup raises before `_config` is assigned, so the held store is
unchanged; a ConfigGroup replaces it. -/
def Context.setConfig (ctx : Context) (value : ConfigValue) :
    Context × Option Err :=
  match value with
  | ConfigValue.group g => ({ ctx with config := g }, none)
  | ConfigValue.other _ => (ctx, some Err.configTypeMismatch)

/-- The method `Context.add_translation_layer` (contexts/__init__.py:84-92):
delegates to `self._memory.add_layer(layer)`. -/
def Context.add_translation_layer (ctx : Context) (l : DataLayer) :
    Context × Option Err :=
  match ctx.memory.add_layer l with
  | (m, e) => ({ ctx with memory := m }, e)

/-- The object produced by `object_template(context = self, object_info =
...)` at contexts/__init__.py:107-109: it holds the context it was built
from, the binding information and the template it decodes through. -/
structure Obj where
  context : Context
  object_info : ObjectInformation
  template : Template
  deriving DecidableEq

/-- The factory method `Context.object` (contexts/__init__.py:96-109): looks the template up
via `get_structure`, specializes it with `update_vol` — in place, through
the alias, so the registered template in the symbol space is updated too —
and constructs the object from that template bound at (layer_name,
offset), passing the context itself. The returned pair is the constructed
object together with the context as it stands after the call. -/
def Context.object (ctx : Context) (symbol : String) (layer_name : String)
    (offset : Nat) (arguments : List (String × Nat)) :
    Except Err (Obj × Context) :=
  match ctx.symbol_space.get_structure symbol with
  | Except.error e => Except.error e
  | Except.ok t =>
      let t2 := t.update_vol arguments
      let ctx2 :=
        { ctx with symbol_space := ctx.symbol_space.setStructure symbol t2 }
      Except.ok
        ({ context := ctx2
           object_info :=
             { layer_name := layer_name, offset := offset
               parent := none, native_layer_name := none }
           template := t2 }, ctx2)

/-- Modelled from the spec: a modifier collaborator (section 6) implements
application to a context and declares configuration options as (name,
expected-type, description) triples. -/
structure Modifier where
  apply : Context → Context
  config_options : List (String × String × String)

/-- An entry of the ContextFactory list: Python lists are untyped, so an
entry is either a modifier or some other value, which
`validity._type_check` rejects. -/
inductive FactoryEntry where
  | modifier (m : Modifier)
  | invalid (tag : String)

def FactoryEntry.isModifierValue : FactoryEntry → Bool
  | FactoryEntry.modifier _ => true
  | FactoryEntry.invalid _ => false

/-- Modelled from the spec: `validity.ValidityRoutines._type_check` is not
under src/; sections 6 and 9 describe modifiers as the typed elements of
the factory collection, so the check accepts modifier values and raises
for anything else. -/
def type_check (v : FactoryEntry) : Option Err :=
  match v with
  | FactoryEntry.modifier _ => none
  | FactoryEntry.invalid _ => some Err.typeCheckFailed

/-- The class `ContextFactory` subclasses `list` (contexts/__init__.py:11). -/
abbrev ContextFactory : Type := List FactoryEntry

/-- The method `ContextFactory.__setitem__` (contexts/__init__.py:14-16): type-checks
the value, then stores it through the inherited list assignment; the check
precedes the store, so a failing check leaves the list unchanged. -/
def ContextFactory.setItem (f : ContextFactory) (key : Nat)
    (value : FactoryEntry) : ContextFactory × Option Err :=
  match type_check value with
  | some e => (f, some e)
  | none => (List.set f key value, none)

/-- The method `list.append` as inherited by ContextFactory: no override exists in the
class, so no type check runs. -/
def ContextFactory.append (f : ContextFactory) (value : FactoryEntry) :
    ContextFactory :=
  f ++ [value]

/-- One declared configuration option: (name, expected-type,
description). -/
abbrev ConfigOption : Type := String × String × String

/-- The method `ContextFactory.get_config_requirements` (contexts/__init__.py:18-22):
the loop invokes each entry's `get_config_options()` and discards every
result; the body has no return statement, so the Python call returns None
(embedded as `none`), never an aggregation. A non-modifier entry makes the
attribute access raise. -/
def ContextFactory.get_config_requirements (f : ContextFactory) :
    Except Err (Option (List ConfigOption)) :=
  match f.mapM (fun e =>
      match e with
      | FactoryEntry.modifier m => Except.ok m.config_options
      | FactoryEntry.invalid _ => Except.error Err.notAModifier) with
  | Except.ok _ => Except.ok none
  | Except.error e => Except.error e

/-- The loop of `ContextFactory.__call__` (contexts/__init__.py:31-32):
each entry is invoked as `modifier(context = context)` in list order; a
non-modifier entry is not callable that way. -/
def runModifiers : List FactoryEntry → Context → Except Err Context
  | [], ctx => Except.ok ctx
  | FactoryEntry.modifier m :: rest, ctx => runModifiers rest (m.apply ctx)
  | FactoryEntry.invalid _ :: _, _ => Except.error Err.notAModifier

/-- The method `ContextFactory.__call__` (contexts/__init__.py:24-33): constructs
`Context(native.x86NativeTable)`, runs every modifier against it in list
order, and returns that context. -/
def ContextFactory.call (f : ContextFactory) : Except Err Context :=
  runModifiers f (Context.init x86NativeTable)

/-- Pure application of a modifier list in order, head first: the
reference behavior `ContextFactory.call` is compared against. -/
def applyModifiers : List Modifier → Context → Context
  | [], ctx => ctx
  | m :: rest, ctx => applyModifiers rest (m.apply ctx)

/-! Concrete scenario values used by counterexamples and witnesses. -/

/-- A registered parameterless structure template named Test. -/
def testTemplate : Template := { name := "Test", vol := [] }

/-- A context holding one registered template (Test) and one registered
layer (physical) — the end-to-end setup of spec section 8. -/
def ctxDemo : Context :=
  { symbol_space := { natives := x86NativeTable
                      structures := [("Test", testTemplate)] }
    memory := { layers := [("physical",
                            { name := "physical", dependencies := [] })] }
    config := { name := "volatility" } }

/-- The context as it stands after `ctxDemo.object "Test" "physical" 8
[("count", 3)]`: the registered Test template now carries count = 3. -/
def ctxDemoAfter : Context :=
  { ctxDemo with
      symbol_space := { natives := x86NativeTable
                        structures :=
                          [("Test",
                            { name := "Test", vol := [("count", 3)] })] } }

/-- The object returned by `ctxDemo.object "Test" "physical" 8
[("count", 3)]`. -/
def objDemo : Obj :=
  { context := ctxDemoAfter
    object_info := { layer_name := "physical", offset := 8
                     parent := none, native_layer_name := none }
    template := { name := "Test", vol := [("count", 3)] } }

/-- A modifier declaring one configuration option. -/
def pageSizeModifier : Modifier :=
  { apply := id
    config_options := [("page_size", "int", "the page size")] }

/-! Helper lemmas shared by the claim theorems. -/

/-- When `get_structure` finds `t`, `Context.object` returns the object
built from `t.update_vol args` and the context whose symbol space now
stores that updated template. -/
theorem object_eq_ok (ctx : Context) (symbol layer_name : String)
    (offset : Nat) (args : List (String × Nat)) (t : Template)
    (hg : ctx.symbol_space.get_structure symbol = Except.ok t) :
    ctx.object symbol layer_name offset args =
      Except.ok
        ({ context :=
             { ctx with symbol_space :=
                 ctx.symbol_space.setStructure symbol (t.update_vol args) }
           object_info := { layer_name := layer_name, offset := offset
                            parent := none, native_layer_name := none }
           template := t.update_vol args },
         { ctx with symbol_space :=
             ctx.symbol_space.setStructure symbol (t.update_vol args) }) := by
  unfold Context.object
  rw [hg]

/-- When `get_structure` fails, `Context.object` propagates the error. -/
theorem object_eq_error (ctx : Context) (symbol layer_name : String)
    (offset : Nat) (args : List (String × Nat)) (e : Err)
    (hg : ctx.symbol_space.get_structure symbol = Except.error e) :
    ctx.object symbol layer_name offset args = Except.error e := by
  unfold Context.object
  rw [hg]

/-- Running a list of genuine modifiers never raises and folds their
applications in list order, head first. -/
theorem runModifiers_map (ms : List Modifier) (ctx : Context) :
    runModifiers (ms.map FactoryEntry.modifier) ctx =
      Except.ok (applyModifiers ms ctx) := by
  induction ms generalizing ctx with
  | nil => rfl
  | cons m rest ih => simp [runModifiers, applyModifiers, ih]

/-! Claim theorems. -/

/-- Claim C1, refuted on the code: two successive `Context.object` calls
on the same symbol do NOT leave the registered template unmutated. After
`object("Test", "physical", 0, count = 3)` the template registered in the
symbol space carries count = 3 (it started with no parameters), and a
second call passing only signed = 1 yields an object whose template still
carries count = 3 leaked from the first call's parameters — `update_vol`
at contexts/__init__.py:106 mutates the looked-up template in place, the
aliasing the design notes of the spec flag as a latent bug. -/
theorem C1_template_mutation_bug :
    (ctxDemo.object "Test" "physical" 0 [("count", 3)]).toOption.map
        (fun r => r.2.symbol_space.structures) =
      some [("Test", { name := "Test", vol := [("count", 3)] })] ∧
    ctxDemo.symbol_space.structures = [("Test", { name := "Test", vol := [] })] ∧
    ((ctxDemo.object "Test" "physical" 0 [("count", 3)]).toOption.bind
        (fun r => (r.2.object "Test" "physical" 0 [("signed", 1)]).toOption)).map
        (fun r => r.1.template.vol) =
      some [("count", 3), ("signed", 1)] := by
  refine ⟨rfl, rfl, rfl⟩

/-- Claim C2, refuted on the code: `get_config_requirements` calls each
modifier's `get_config_options()` but discards every result and returns
None — not the aggregation its docstring promises — even when a modifier
declares a configuration option. -/
theorem C2_no_aggregation_bug :
    ContextFactory.get_config_requirements
        [FactoryEntry.modifier pageSizeModifier] = Except.ok none ∧
    pageSizeModifier.config_options = [("page_size", "int", "the page size")] :=
  ⟨rfl, rfl⟩

/-- Claim C3: when the symbol space resolves `symbol` to a template `t`,
`Context.object` returns an object whose template is `t` specialized with
the given parameters and whose binding information is exactly
(layer_name, offset). -/
theorem C3_object_composition (ctx : Context) (symbol layer_name : String)
    (offset : Nat) (args : List (String × Nat)) (t : Template)
    (h : ctx.symbol_space.get_structure symbol = Except.ok t) :
    ∃ o ctx2,
      ctx.object symbol layer_name offset args = Except.ok (o, ctx2) ∧
      o.template = t.update_vol args ∧
      o.object_info.layer_name = layer_name ∧
      o.object_info.offset = offset := by
  refine ⟨_, _, object_eq_ok ctx symbol layer_name offset args t h, rfl, rfl, rfl⟩

/-- Witness for C3 at the concrete demo context. -/
theorem C3_object_composition_witness :
    ∃ o ctx2,
      ctxDemo.object "Test" "physical" 8 [("count", 3)] =
        Except.ok (o, ctx2) ∧
      o.template = testTemplate.update_vol [("count", 3)] ∧
      o.object_info.layer_name = "physical" ∧
      o.object_info.offset = 8 :=
  C3_object_composition ctxDemo "Test" "physical" 8 [("count", 3)]
    testTemplate rfl

/-- Claim C4: calling a factory of modifiers m1..mn seeds a fresh context
with the x86 native table and returns the result of applying each
modifier exactly once in list order, head first. -/
theorem C4_factory_call (ms : List Modifier) :
    ContextFactory.call (ms.map FactoryEntry.modifier) =
      Except.ok (applyModifiers ms (Context.init x86NativeTable)) :=
  runModifiers_map ms (Context.init x86NativeTable)

/-- Claim C5: adding a layer whose name is already registered fails with
LayerAlreadyExists; adding a layer with an unregistered dependency fails
with LayerDependencyUnmet; every failure leaves the context (hence the
layer registry) unchanged, with the previously registered layer of that
name still queryable. -/
theorem C5_add_layer_atomic (ctx : Context) (l : DataLayer) :
    ((ctx.memory.lookupLayer l.name).isSome →
      ctx.add_translation_layer l = (ctx, some Err.layerAlreadyExists)) ∧
    ((ctx.memory.lookupLayer l.name).isNone →
      l.dependencies.any (fun d => (ctx.memory.lookupLayer d).isNone) →
      ctx.add_translation_layer l = (ctx, some Err.layerDependencyUnmet)) ∧
    (∀ ctx2 e, ctx.add_translation_layer l = (ctx2, some e) →
      ctx2 = ctx ∧ ctx2.memory.lookupLayer l.name = ctx.memory.lookupLayer l.name) := by
  unfold Context.add_translation_layer Memory.add_layer
  refine ⟨fun hdup => ?_, fun hfresh hdep => ?_, fun ctx2 e heq => ?_⟩
  · simp [hdup]
  · simp [Option.isNone_iff_eq_none.mp (by simpa using hfresh), hdep,
      Option.not_isSome_iff_eq_none]
  · by_cases hdup : (ctx.memory.lookupLayer l.name).isSome
    · simp only [hdup, if_pos] at heq
      cases heq
      exact ⟨rfl, rfl⟩
    · simp only [hdup, if_neg, Bool.false_eq_true, not_false_eq_true] at heq
      by_cases hdep : l.dependencies.any (fun d => (ctx.memory.lookupLayer d).isNone)
      · simp only [hdep, if_pos] at heq
        cases heq
        exact ⟨rfl, rfl⟩
      · simp only [hdep, if_neg, Bool.false_eq_true, not_false_eq_true] at heq
        cases heq

/-- Witness for C5: both failure cases at concrete layers over the demo
context, which already registers a layer named physical. -/
theorem C5_add_layer_atomic_witness :
    ctxDemo.add_translation_layer { name := "physical", dependencies := [] } =
      (ctxDemo, some Err.layerAlreadyExists) ∧
    ctxDemo.add_translation_layer
        { name := "virtual", dependencies := ["missing"] } =
      (ctxDemo, some Err.layerDependencyUnmet) :=
  ⟨(C5_add_layer_atomic ctxDemo { name := "physical", dependencies := [] }).1
      rfl,
   (C5_add_layer_atomic ctxDemo
      { name := "virtual", dependencies := ["missing"] }).2.1 rfl rfl⟩

/-- Claim C6: a symbol no registered table defines makes `get_structure`
fail with SymbolNotFound, and `Context.object` propagates that error — the
error result carries no object, so none is constructed. -/
theorem C6_symbol_not_found (ctx : Context) (symbol layer_name : String)
    (offset : Nat) (args : List (String × Nat))
    (h : ctx.symbol_space.structures.lookup symbol = none) :
    ctx.symbol_space.get_structure symbol = Except.error Err.symbolNotFound ∧
    ctx.object symbol layer_name offset args =
      Except.error Err.symbolNotFound := by
  have hg : ctx.symbol_space.get_structure symbol =
      Except.error Err.symbolNotFound := by
    unfold SymbolSpace.get_structure
    rw [h]
  exact ⟨hg, object_eq_error ctx symbol layer_name offset args _ hg⟩

/-- Witness for C6 at a symbol the demo context does not register. -/
theorem C6_symbol_not_found_witness :
    ctxDemo.symbol_space.get_structure "Missing" =
      Except.error Err.symbolNotFound ∧
    ctxDemo.object "Missing" "physical" 0 [] =
      Except.error Err.symbolNotFound :=
  C6_symbol_not_found ctxDemo "Missing" "physical" 0 [] rfl

/-- Claim C7: assigning a value that is not a ConfigGroup to the config
property raises (embedded as configTypeMismatch, the TypeError of
contexts/__init__.py:68) before the store is replaced, so the held
configuration store is unchanged and still readable. -/
theorem C7_config_type_mismatch (ctx : Context) (v : ConfigValue)
    (h : v.isGroup = false) :
    ctx.setConfig v = (ctx, some Err.configTypeMismatch) ∧
    (ctx.setConfig v).fst.config = ctx.config := by
  cases v with
  | group g => simp [ConfigValue.isGroup] at h
  | other s => exact ⟨rfl, rfl⟩

/-- Witness for C7: assigning a non-ConfigGroup value to the demo
context. -/
theorem C7_config_type_mismatch_witness :
    ctxDemo.setConfig (ConfigValue.other "a string") =
      (ctxDemo, some Err.configTypeMismatch) ∧
    (ctxDemo.setConfig (ConfigValue.other "a string")).fst.config =
      ctxDemo.config :=
  C7_config_type_mismatch ctxDemo (ConfigValue.other "a string") rfl

/-- Claim C8: index assignment on a factory type-checks the value; a
failing check raises and leaves the stored sequence unchanged, while the
inherited append stores the very same value without any validation. -/
theorem C8_setitem_type_check (f : ContextFactory) (k : Nat)
    (v : FactoryEntry) (h : v.isModifierValue = false) :
    ContextFactory.setItem f k v = (f, some Err.typeCheckFailed) ∧
    ContextFactory.append f v = f ++ [v] := by
  cases v with
  | modifier m => simp [FactoryEntry.isModifierValue] at h
  | invalid s => exact ⟨rfl, rfl⟩

/-- Witness for C8: assigning a non-modifier value into an empty
factory. -/
theorem C8_setitem_type_check_witness :
    ContextFactory.setItem [] 0 (FactoryEntry.invalid "a string") =
      ([], some Err.typeCheckFailed) ∧
    ContextFactory.append [] (FactoryEntry.invalid "a string") =
      [FactoryEntry.invalid "a string"] :=
  C8_setitem_type_check [] 0 (FactoryEntry.invalid "a string") rfl

/-- Claim C9: a context constructed without an explicit natives argument
carries the x86 native table, and every factory call starts from exactly
that default-seeded context whatever its modifier list is. -/
theorem C9_x86_seed :
    Context.initDefault.symbol_space.natives = x86NativeTable ∧
    (∀ ms : List Modifier,
      ContextFactory.call (ms.map FactoryEntry.modifier) =
        Except.ok (applyModifiers ms Context.initDefault)) ∧
    Context.initDefault = Context.init x86NativeTable :=
  ⟨rfl, fun ms => runModifiers_map ms Context.initDefault, rfl⟩

/-- Claim C10: a successful `Context.object` call produces an object
holding the very context of the call (whose memory and configuration the
call left untouched) and binding information that repeats layer_name and
offset verbatim with no parent or native-layer metadata. -/
theorem C10_object_binding (ctx : Context) (symbol layer_name : String)
    (offset : Nat) (args : List (String × Nat)) (o : Obj) (ctx2 : Context)
    (h : ctx.object symbol layer_name offset args = Except.ok (o, ctx2)) :
    o.context = ctx2 ∧
    ctx2.memory = ctx.memory ∧
    ctx2.config = ctx.config ∧
    o.object_info.layer_name = layer_name ∧
    o.object_info.offset = offset ∧
    o.object_info.parent = none ∧
    o.object_info.native_layer_name = none := by
  cases hg : ctx.symbol_space.get_structure symbol with
  | error e =>
      rw [object_eq_error ctx symbol layer_name offset args e hg] at h
      cases h
  | ok t =>
      rw [object_eq_ok ctx symbol layer_name offset args t hg] at h
      simp only [Except.ok.injEq, Prod.mk.injEq] at h
      obtain ⟨ho, hc⟩ := h
      subst hc
      rw [← ho]
      exact ⟨rfl, rfl, rfl, rfl, rfl, rfl, rfl⟩

/-- Witness for C10 at the concrete demo context and its computed
result. -/
theorem C10_object_binding_witness :
    objDemo.context = ctxDemoAfter ∧
    ctxDemoAfter.memory = ctxDemo.memory ∧
    ctxDemoAfter.config = ctxDemo.config ∧
    objDemo.object_info.layer_name = "physical" ∧
    objDemo.object_info.offset = 8 ∧
    objDemo.object_info.parent = none ∧
    objDemo.object_info.native_layer_name = none :=
  C10_object_binding ctxDemo "Test" "physical" 8 [("count", 3)] objDemo
    ctxDemoAfter rfl

end Volatility
